import Mathlib

/-!
Verification development for the questionnaire-autofill repository.

The frontend source (frontend/lib/api.ts, frontend/lib/download.ts,
frontend/components/FileUpload.tsx, frontend/app/page.tsx) is embedded
shallowly below.  The backend service (confidence scorer, batch
orchestrator, CSV generation) is not part of the snapshot; the parts of it
that claims need are modelled from the specification and marked as such.
-/

/-! ## A small JSON value model (for response bodies) -/

/-- JSON values, numbers restricted to the integers that the API contracts
use. -/
inductive Json where
  | null : Json
  | bool : Bool → Json
  | num : Int → Json
  | str : String → Json
  | arr : List Json → Json
  | obj : List (String × Json) → Json

/-- Field lookup on a JSON object (`none` on non-objects and missing keys),
modelling JavaScript property access on a parsed value. -/
def Json.lookup (j : Json) (k : String) : Option Json :=
  match j with
  | .obj fields => fields.lookup k
  | _ => none

/-- The keys of a JSON object, in order ([] on non-objects). -/
def Json.keys (j : Json) : List String :=
  match j with
  | .obj fields => fields.map Prod.fst
  | _ => []

/-- JavaScript truthiness of a JSON value, as used by `errorJson.detail ||
errorMessage` in api.ts. -/
def jsTruthy (j : Json) : Bool :=
  match j with
  | .null => false
  | .bool b => b
  | .num n => n != 0
  | .str s => s != ""
  | .arr _ => true
  | .obj _ => true

/-- The string a JSON value turns into when used as an `Error` message. -/
def jsonMessage (j : Json) : String :=
  match j with
  | .str s => s
  | .num n => toString n
  | .bool b => if b then "true" else "false"
  | .null => "null"
  | .arr _ => "[object]"
  | .obj _ => "[object Object]"

/-! ## HTTP responses

A `fetch` response as the frontend observes it: the `ok` flag, the numeric
status, the body text, and the result of `JSON.parse` on the body text
(`none` when the body is not valid JSON). -/

structure HttpResponse where
  ok : Bool
  status : Nat
  bodyText : String
  bodyJson : Option Json

/-! ## frontend/lib/api.ts : response data model -/

/-- `HealthResponse` from frontend/lib/api.ts. -/
structure HealthResponse where
  status : String
  knowledge_base_entries : Int
deriving Repr, DecidableEq

/-- `FillResult` from frontend/lib/api.ts: the per-question output record. -/
structure FillResult where
  question : String
  answer : String
  confidence_score : Int
  confidence_level : String
  evidence : String
  similarity_score : Int
deriving Repr, DecidableEq

/-- The `summary` sub-object of `FillResponse` from frontend/lib/api.ts. -/
structure Summary where
  high : Int
  medium : Int
  low : Int
  requires_human_attention : Int
deriving Repr, DecidableEq

/-- `FillResponse` from frontend/lib/api.ts: the aggregate result. -/
structure FillResponse where
  total_questions : Int
  results : List FillResult
  csv_output : String
  summary : Summary
deriving Repr, DecidableEq

/-! Decoders: `response.json()` typed at the declared interfaces. -/

/-- Decode a JSON body at the `HealthResponse` interface. -/
def decodeHealth (j : Json) : Option HealthResponse :=
  match j.lookup "status", j.lookup "knowledge_base_entries" with
  | some (.str s), some (.num n) => some ⟨s, n⟩
  | _, _ => none

/-- Decode one element of `results` at the `FillResult` interface. -/
def decodeFillResult (j : Json) : Option FillResult :=
  match j.lookup "question", j.lookup "answer", j.lookup "confidence_score",
        j.lookup "confidence_level", j.lookup "evidence",
        j.lookup "similarity_score" with
  | some (.str q), some (.str a), some (.num cs), some (.str cl),
      some (.str ev), some (.num ss) => some ⟨q, a, cs, cl, ev, ss⟩
  | _, _, _, _, _, _ => none

/-- Decode the `summary` sub-object. -/
def decodeSummary (j : Json) : Option Summary :=
  match j.lookup "high", j.lookup "medium", j.lookup "low",
        j.lookup "requires_human_attention" with
  | some (.num h), some (.num m), some (.num l), some (.num r) =>
      some ⟨h, m, l, r⟩
  | _, _, _, _ => none

/-- Decode a JSON body at the `FillResponse` interface. -/
def decodeFillResponse (j : Json) : Option FillResponse :=
  match j.lookup "total_questions", j.lookup "results",
        j.lookup "csv_output", j.lookup "summary" with
  | some (.num t), some (.arr rs), some (.str csv), some sj =>
      match rs.mapM decodeFillResult, decodeSummary sj with
      | some records, some sm => some ⟨t, records, csv, sm⟩
      | _, _ => none
  | _, _, _, _ => none

/-! Canonical JSON serializations of the interfaces (used to state
field-exactness). -/

/-- Serialize a `HealthResponse`; its keys are the interface's fields. -/
def encodeHealth (h : HealthResponse) : Json :=
  .obj [("status", .str h.status),
        ("knowledge_base_entries", .num h.knowledge_base_entries)]

/-- Serialize a `FillResult`; its keys are the interface's fields. -/
def encodeFillResult (r : FillResult) : Json :=
  .obj [("question", .str r.question),
        ("answer", .str r.answer),
        ("confidence_score", .num r.confidence_score),
        ("confidence_level", .str r.confidence_level),
        ("evidence", .str r.evidence),
        ("similarity_score", .num r.similarity_score)]

/-- Serialize a `Summary`; its keys are the interface's fields. -/
def encodeSummary (s : Summary) : Json :=
  .obj [("high", .num s.high),
        ("medium", .num s.medium),
        ("low", .num s.low),
        ("requires_human_attention", .num s.requires_human_attention)]

/-- Serialize a `FillResponse`; its keys are the interface's fields. -/
def encodeFillResponse (r : FillResponse) : Json :=
  .obj [("total_questions", .num r.total_questions),
        ("results", .arr (r.results.map encodeFillResult)),
        ("csv_output", .str r.csv_output),
        ("summary", encodeSummary r.summary)]

/-! ## frontend/lib/api.ts : the API client functions -/

/-- `checkHealth` from frontend/lib/api.ts: on a non-ok response it throws
`Health check failed: <status>`; otherwise it returns the parsed body typed
as `HealthResponse`. -/
def checkHealth (resp : HttpResponse) : Except String HealthResponse :=
  if resp.ok then
    match resp.bodyJson with
    | some j =>
        match decodeHealth j with
        | some h => .ok h
        | none => .error "Invalid JSON response"
    | none => .error "Invalid JSON response"
  else
    .error ("Health check failed: " ++ toString resp.status)

/-- The error message `fillQuestionnaire` builds for a non-ok response:
the parsed body's `detail` field when present and truthy (accessing
`.detail` on `null` throws, landing in the catch branch), else the raw
body text when the body is not a usable JSON object and is non-empty,
else `Request failed: <status>`. -/
def fillErrorMessage (resp : HttpResponse) : String :=
  let fallback := "Request failed: " ++ toString resp.status
  match resp.bodyJson with
  | some .null => if resp.bodyText = "" then fallback else resp.bodyText
  | some j =>
      match j.lookup "detail" with
      | some d => if jsTruthy d then jsonMessage d else fallback
      | none => fallback
  | none => if resp.bodyText = "" then fallback else resp.bodyText

/-- `fillQuestionnaire` from frontend/lib/api.ts: on a non-ok response it
throws the error message above and returns no result; otherwise it returns
the parsed body typed as `FillResponse`. -/
def fillQuestionnaire (resp : HttpResponse) : Except String FillResponse :=
  if resp.ok then
    match resp.bodyJson with
    | some j =>
        match decodeFillResponse j with
        | some r => .ok r
        | none => .error "Invalid JSON response"
    | none => .error "Invalid JSON response"
  else
    .error (fillErrorMessage resp)

/-! ## frontend/components/FileUpload.tsx -/

/-- A browser `File` as the component observes it. -/
structure DomFile where
  name : String
deriving Repr, DecidableEq

/-- JavaScript `String.prototype.endsWith`, over the character lists. -/
def jsEndsWith (s suffix : String) : Bool :=
  List.isPrefixOf suffix.data.reverse s.data.reverse

/-- `handleDrop` from FileUpload.tsx: the file handed to `onFileSelect`
(`none` when the callback is not invoked).  Disabled drops are ignored;
otherwise the first dropped file is delivered only when its name ends in
`.csv`. -/
def handleDrop (disabled : Bool) (files : List DomFile) : Option DomFile :=
  if disabled then none
  else
    match files with
    | [] => none
    | f :: _ => if jsEndsWith f.name ".csv" then some f else none

/-- `handleFileChange` from FileUpload.tsx: the file handed to
`onFileSelect` when the file-input dialog reports `files` (which may be
absent).  The first selected file is always delivered, with no extension
check. -/
def handleFileChange (files : Option (List DomFile)) : Option DomFile :=
  match files with
  | some (f :: _) => some f
  | _ => none

/-! ## frontend/lib/download.ts -/

/-- The extension-stripping step of `downloadCSV`:
`originalFilename.replace(/\.[^/.]+$/, '')`, i.e. remove a final dot
followed by one or more characters none of which is a dot or a slash;
leave the name unchanged when no such suffix exists. -/
def stripExtension (name : String) : String :=
  match name.data.reverse.dropWhile (fun c => c != '.' && c != '/') with
  | '.' :: base =>
      if (name.data.reverse.takeWhile (fun c => c != '.' && c != '/')).isEmpty
      then name
      else ⟨base.reverse⟩
  | _ => name

/-- The date step of `downloadCSV`: `isoNow.split('T')[0]`, the part of the
ISO timestamp before the first `T` (the calendar date).  The current time
`new Date().toISOString()` is passed in as `isoNow`. -/
def dateOfIso (isoNow : String) : String :=
  ⟨isoNow.data.takeWhile (fun c => c != 'T')⟩

/-- The filename `downloadCSV` from download.ts assigns to the download:
`filled_<base>_<date>.csv`. -/
def downloadFilename (originalFilename : String) (isoNow : String) : String :=
  "filled_" ++ stripExtension originalFilename ++ "_" ++ dateOfIso isoNow ++ ".csv"

/-! ## frontend/app/page.tsx : the page state machine -/

/-- `AppState` from page.tsx. -/
inductive AppState where
  | idle
  | processing
  | ready
  | error
deriving Repr, DecidableEq

/-- The `Home` component's state: `state`, `selectedFile`, `result`,
`error` (the health-check fields do not interact with these and are
omitted). -/
structure PageState where
  appState : AppState
  selectedFile : Option DomFile
  result : Option FillResponse
  error : Option String
deriving DecidableEq

/-- The initial `useState` values in page.tsx. -/
def initState : PageState :=
  { appState := .idle, selectedFile := none, result := none, error := none }

/-- The UI events that touch the four state variables.  `autofillStart` is
the Autofill button (rendered only in the idle view); the two completion
events are the resolution of the request started by it (possible only
while a request is in flight, i.e. in the processing state);
`fileSelect` is delivered by `FileUpload` (rendered only in the idle
view); `reset` is the reset buttons of the ready and error views. -/
inductive PageEvent where
  | fileSelect (f : DomFile)
  | autofillStart
  | autofillSuccess (r : FillResponse)
  | autofillFailure (msg : String)
  | download
  | reset

/-- One transition of the page state machine, from the handlers in
page.tsx. -/
def step (e : PageEvent) (s : PageState) : PageState :=
  match e with
  | .fileSelect f =>
      if s.appState = .idle then
        { s with selectedFile := some f, error := none }
      else s
  | .autofillStart =>
      if s.appState = .idle then
        match s.selectedFile with
        | none => s
        | some _ =>
            { s with appState := .processing, error := none, result := none }
      else s
  | .autofillSuccess r =>
      if s.appState = .processing then
        { s with result := some r, appState := .ready }
      else s
  | .autofillFailure msg =>
      if s.appState = .processing then
        { s with error := some msg, appState := .error }
      else s
  | .download => s
  | .reset =>
      if s.appState = .ready ∨ s.appState = .error then initState else s

/-- The page state after a sequence of events from the initial state. -/
def run (events : List PageEvent) : PageState :=
  events.foldl (fun s e => step e s) initState

/-- The render guard of the ready view in page.tsx:
`state === 'ready' && result`. -/
def readyViewRendered (s : PageState) : Bool :=
  s.appState = .ready && s.result.isSome

/-! ## Backend model (the backend service itself is not in the snapshot) -/

/-- Modelled from the spec: a knowledge-base entry
(`backend/services/knowledge_index.py` and `backend/models.py` are missing
from the snapshot); spec section 3:
`{source_document, section, row_index, question_text, answer_text}`. -/
structure KnowledgeEntry where
  source_document : String
  sectionName : String
  row_index : Nat
  question_text : String
  answer_text : String
deriving Repr, DecidableEq

/-- The discrete confidence bands. -/
inductive Level where
  | high
  | medium
  | low
  | requiresHumanAttention
deriving Repr, DecidableEq

/-- The enum string of a confidence band, as it appears in
`confidence_level`. -/
def levelName (l : Level) : String :=
  match l with
  | .high => "High"
  | .medium => "Medium"
  | .low => "Low"
  | .requiresHumanAttention => "Requires Human Attention"

/-- Modelled from the spec: the configurable band boundaries of the scorer
(`backend/services/confidence_scorer.py` is missing from the snapshot).
`mediumLow` is the lower bound of the Medium band (documented as 70 or 75),
`lowLow` the lower bound of the Low band (documented as 40 or 50); High is
always scores of at least 90. -/
structure Banding where
  mediumLow : Int
  lowLow : Int
deriving Repr, DecidableEq

/-- A banding is consistent when its bands are non-empty and ordered:
Low below Medium below the fixed High bound 90. -/
def validBanding (b : Banding) : Prop :=
  b.lowLow < b.mediumLow ∧ b.mediumLow < 90

/-- Modelled from the spec: the final confidence score
(`backend/services/confidence_scorer.py` is missing from the snapshot):
`clamp(base + sum of adjustments, 0, 100)` with the base similarity itself
in [0,100]. -/
def finalScore (base : Int) (adjustments : List Int) : Int :=
  min 100 (max 0 (min 100 (max 0 base) + adjustments.sum))

/-- Modelled from the spec: the numeric level mapping of the scorer
(`backend/services/confidence_scorer.py` is missing from the snapshot):
High for scores of at least 90, Medium from `mediumLow`, Low from `lowLow`,
RequiresHumanAttention below. -/
def numericLevel (b : Banding) (score : Int) : Level :=
  if 90 ≤ score then .high
  else if b.mediumLow ≤ score then .medium
  else if b.lowLow ≤ score then .low
  else .requiresHumanAttention

/-- Modelled from the spec: the full level mapping; the internal-matter
flag always overrides the numeric mapping with RequiresHumanAttention. -/
def confidenceLevel (b : Banding) (internalMatter : Bool) (score : Int) :
    Level :=
  if internalMatter then .requiresHumanAttention else numericLevel b score

/-- Modelled from the spec: the fixed citation format used by the backend
CSV generator (`backend/services/csv_processor.py` is missing from the
snapshot): `[<source_document> > <section> > Row <n>]`. -/
def mkCitation (doc sec : String) (row : Nat) : String :=
  "[" ++ doc ++ " > " ++ sec ++ " > Row " ++ toString row ++ "]"

/-- Modelled from the spec: how the batch orchestrator folds one question's
results into a `FillRecord` (the orchestrator is missing from the
snapshot): the clamped final score, its band name, and a citation of the
best evidence entry. -/
def mkFillRecord (q answerText : String) (entry : KnowledgeEntry)
    (similarity : Int) (adjustments : List Int) (b : Banding)
    (internalMatter : Bool) : FillResult :=
  { question := q
    answer := answerText
    confidence_score := finalScore similarity adjustments
    confidence_level :=
      levelName (confidenceLevel b internalMatter (finalScore similarity adjustments))
    evidence := mkCitation entry.source_document entry.sectionName entry.row_index
    similarity_score := similarity }

/-- Modelled from the spec: the fixed header of the tabular output body
(`backend/services/csv_processor.py` is missing from the snapshot). -/
def csvHeader : String := "Question,Answer,Confidence Score,Evidence"

/-- Quote one CSV field. -/
def csvQuote (s : String) : String := "\x22" ++ s ++ "\x22"

/-- Modelled from the spec: one row of the tabular body, in the fixed
column order Question, Answer, Confidence Score, Evidence. -/
def csvRow (r : FillResult) : String :=
  csvQuote r.question ++ "," ++ csvQuote r.answer ++ ","
    ++ toString r.confidence_score ++ "," ++ csvQuote r.evidence

/-- Modelled from the spec: the tabular output body as a list of lines,
header first, one row per record. -/
def csvLinesOf (records : List FillResult) : List String :=
  csvHeader :: records.map csvRow

/-! ## The streaming protocol (modelled from the spec) -/

/-- A non-terminal progress object `{state, progress, message}`. -/
structure ProgressMsg where
  state : String
  progress : Nat
  message : String
deriving Repr, DecidableEq

/-- The terminal progress object, which also carries `output_filename`. -/
structure TerminalMsg where
  state : String
  progress : Nat
  message : String
  output_filename : String
deriving Repr, DecidableEq

/-- Modelled from the spec: the serialized form of a progress object, one
JSON line (the backend streaming endpoint is missing from the snapshot). -/
def renderProgress (p : ProgressMsg) : String :=
  "\x7b" ++ ("\x22state\x22: \x22" ++ (p.state ++ ("\x22, \x22progress\x22: "
    ++ (toString p.progress ++ (", \x22message\x22: \x22"
    ++ (p.message ++ "\x22\x7d"))))))

/-- Modelled from the spec: the serialized terminal progress object. -/
def renderTerminal (t : TerminalMsg) : String :=
  "\x7b" ++ ("\x22state\x22: \x22" ++ (t.state ++ ("\x22, \x22progress\x22: "
    ++ (toString t.progress ++ (", \x22message\x22: \x22"
    ++ (t.message ++ ("\x22, \x22output_filename\x22: \x22"
    ++ (t.output_filename ++ "\x22\x7d"))))))))

/-- The literal delimiter line between the progress part and the tabular
body. -/
def csvDelimiter : String := "---CSV---"

/-- Modelled from the spec: the terminal object the orchestrator always
emits: `state="ready"`, `progress=100`, and the output filename. -/
def mkTerminal (filename : String) : TerminalMsg :=
  { state := "ready", progress := 100, message := "Ready to download."
    output_filename := filename }

/-- Modelled from the spec: the whole fill stream as a list of
newline-delimited lines: progress objects, the terminal object, the
delimiter, then the raw tabular body. -/
def emitStream (updates : List ProgressMsg) (filename : String)
    (csvBody : List String) : List String :=
  updates.map renderProgress
    ++ (renderTerminal (mkTerminal filename) :: (csvDelimiter :: csvBody))

/-- The consumer's split on the first occurrence of the delimiter line:
the progress part and the tabular body. -/
def consumeStream (stream : List String) : List String × List String :=
  (stream.takeWhile (fun l => l != csvDelimiter),
   (stream.dropWhile (fun l => l != csvDelimiter)).drop 1)

/-! ## Sample values used by witnesses -/

/-- A well-formed per-question record body. -/
def sampleRecordJson : Json :=
  .obj [("question", .str "What is your KYC process?"),
        ("answer", .str "Fuze follows a documented KYC process."),
        ("confidence_score", .num 97),
        ("confidence_level", .str "High"),
        ("evidence", .str "[Questions_for_bidder > Regulatory > Row 23]"),
        ("similarity_score", .num 92)]

/-- A well-formed aggregate response body. -/
def sampleBodyJson : Json :=
  .obj [("total_questions", .num 1),
        ("results", .arr [sampleRecordJson]),
        ("csv_output", .str "Question,Answer,Confidence Score,Evidence"),
        ("summary", .obj [("high", .num 1), ("medium", .num 0),
                          ("low", .num 0),
                          ("requires_human_attention", .num 0)])]

/-- A successful fill response. -/
def sampleOkResponse : HttpResponse :=
  { ok := true, status := 200, bodyText := "", bodyJson := some sampleBodyJson }

/-- The `FillResponse` value encoded by `sampleBodyJson`. -/
def sampleFill : FillResponse :=
  { total_questions := 1
    results := [{ question := "What is your KYC process?"
                  answer := "Fuze follows a documented KYC process."
                  confidence_score := 97
                  confidence_level := "High"
                  evidence := "[Questions_for_bidder > Regulatory > Row 23]"
                  similarity_score := 92 }]
    csv_output := "Question,Answer,Confidence Score,Evidence"
    summary := { high := 1, medium := 0, low := 0,
                 requires_human_attention := 0 } }

/-! ## C1 -/

/-- C1: every successful `fillQuestionnaire` result comes from the response
body decoded at the `FillResponse` interface, and (serialized) it is an
object with exactly the fields `total_questions`, `results` (an ordered
list of `FillResult` records), `csv_output` (a string) and `summary` with
exactly the four counts `high`, `medium`, `low`,
`requires_human_attention`. -/
theorem fillQuestionnaire_result_shape (resp : HttpResponse)
    (r : FillResponse) (h : fillQuestionnaire resp = .ok r) :
    resp.ok = true ∧
    (∃ j, resp.bodyJson = some j ∧ decodeFillResponse j = some r) ∧
    (encodeFillResponse r).keys =
      ["total_questions", "results", "csv_output", "summary"] ∧
    (encodeSummary r.summary).keys =
      ["high", "medium", "low", "requires_human_attention"] := by
  unfold fillQuestionnaire at h
  split at h
  · rename_i hok
    cases hj : resp.bodyJson with
    | none => rw [hj] at h; exact absurd h (by simp)
    | some j =>
        rw [hj] at h
        cases hd : decodeFillResponse j with
        | none => simp [hd] at h
        | some r0 =>
            simp [hd] at h
            exact ⟨hok, ⟨j, rfl, h ▸ hd⟩, rfl, rfl⟩
  · exact absurd h (by simp)

/-- Witness for C1 at a concrete successful response. -/
theorem fillQuestionnaire_result_shape_witness :
    sampleOkResponse.ok = true ∧
    (∃ j, sampleOkResponse.bodyJson = some j ∧
      decodeFillResponse j = some sampleFill) ∧
    (encodeFillResponse sampleFill).keys =
      ["total_questions", "results", "csv_output", "summary"] ∧
    (encodeSummary sampleFill.summary).keys =
      ["high", "medium", "low", "requires_human_attention"] :=
  fillQuestionnaire_result_shape sampleOkResponse sampleFill (by rfl)

/-! ## C2 -/

/-- C2: a per-question record, serialized, carries exactly the field names
`question`, `answer`, `confidence_score`, `confidence_level`, `evidence`,
`similarity_score`; and the `confidence_score` the (spec-modelled) backend
puts into a record is always an integer in [0,100]. -/
theorem fillResult_field_shape :
    (∀ r : FillResult, (encodeFillResult r).keys =
      ["question", "answer", "confidence_score", "confidence_level",
       "evidence", "similarity_score"]) ∧
    (∀ (q a : String) (entry : KnowledgeEntry) (sim : Int)
       (adjs : List Int) (b : Banding) (flag : Bool),
       0 ≤ (mkFillRecord q a entry sim adjs b flag).confidence_score ∧
       (mkFillRecord q a entry sim adjs b flag).confidence_score ≤ 100) := by
  constructor
  · intro r; rfl
  · intro q a entry sim adjs b flag
    simp only [mkFillRecord, finalScore]
    omega

/-! ## C4 -/

/-- C4: on every non-ok response `fillQuestionnaire` throws and returns no
result, and the thrown message is the server's `detail` field, or the raw
error body, or `Request failed: <status>`. -/
theorem fillQuestionnaire_error_contract (resp : HttpResponse)
    (hok : resp.ok = false) :
    fillQuestionnaire resp = .error (fillErrorMessage resp) ∧
    (∀ r, fillQuestionnaire resp ≠ .ok r) ∧
    ((∃ j d, resp.bodyJson = some j ∧ j.lookup "detail" = some d ∧
        fillErrorMessage resp = jsonMessage d) ∨
     fillErrorMessage resp = resp.bodyText ∨
     fillErrorMessage resp = "Request failed: " ++ toString resp.status) := by
  have h1 : fillQuestionnaire resp = .error (fillErrorMessage resp) := by
    simp [fillQuestionnaire, hok]
  refine ⟨h1, fun r hr => by rw [h1] at hr; exact Except.noConfusion hr, ?_⟩
  cases hj : resp.bodyJson with
  | none =>
      simp only [fillErrorMessage, hj]
      by_cases hb : resp.bodyText = "" <;> simp [hb]
  | some j =>
      cases j with
      | null =>
          simp only [fillErrorMessage, hj]
          by_cases hb : resp.bodyText = "" <;> simp [hb]
      | bool b => simp [fillErrorMessage, hj, Json.lookup]
      | num n => simp [fillErrorMessage, hj, Json.lookup]
      | str s => simp [fillErrorMessage, hj, Json.lookup]
      | arr a => simp [fillErrorMessage, hj, Json.lookup]
      | obj fields =>
          cases hd : (Json.obj fields).lookup "detail" with
          | none => simp [fillErrorMessage, hj, hd]
          | some d =>
              by_cases ht : jsTruthy d
              · exact Or.inl ⟨Json.obj fields, d, rfl,
                  hd, by simp [fillErrorMessage, hj, hd, ht]⟩
              · simp [fillErrorMessage, hj, hd, ht]

/-- A concrete 400 response whose body carries a `detail` message. -/
def sampleErrResponse : HttpResponse :=
  { ok := false, status := 400
    bodyText := "\x7b\x22detail\x22: \x22CSV must contain a question column\x22\x7d"
    bodyJson := some (.obj [("detail", .str "CSV must contain a question column")]) }

/-- Witness for C4 at a concrete non-ok response. -/
theorem fillQuestionnaire_error_contract_witness :
    fillQuestionnaire sampleErrResponse =
      .error (fillErrorMessage sampleErrResponse) ∧
    fillErrorMessage sampleErrResponse = "CSV must contain a question column" :=
  ⟨(fillQuestionnaire_error_contract sampleErrResponse rfl).1, rfl⟩

/-! ## C7 -/

/-- The JSON-failure message is never a health-status message (their first
characters differ). -/
theorem invalidMsg_ne_healthMsg (s : String) :
    ("Invalid JSON response" : String) ≠ "Health check failed: " ++ s :=
  fun h => nomatch congrArg (fun t => t.data.head?) h

/-- C7: `checkHealth` throws an error naming the HTTP status code exactly
when the response is not ok, and an ok (well-formed) response yields a
status object decoded from the body that, serialized, has exactly the
fields `status` and `knowledge_base_entries` (an integer by the decoder). -/
theorem checkHealth_contract (resp : HttpResponse) :
    (resp.ok = false ↔
      checkHealth resp =
        .error ("Health check failed: " ++ toString resp.status)) ∧
    (∀ h : HealthResponse, checkHealth resp = .ok h →
      resp.ok = true ∧
      (∃ j, resp.bodyJson = some j ∧ decodeHealth j = some h) ∧
      (encodeHealth h).keys = ["status", "knowledge_base_entries"]) := by
  constructor
  · cases hro : resp.ok with
    | false => simp [checkHealth, hro]
    | true =>
        simp only [Bool.true_eq_false, false_iff]
        intro he
        simp only [checkHealth, hro, if_true] at he
        cases hj : resp.bodyJson with
        | none =>
            rw [hj] at he
            simp only [Except.error.injEq] at he
            exact invalidMsg_ne_healthMsg _ he
        | some j =>
            rw [hj] at he
            cases hd : decodeHealth j with
            | none =>
                simp only [hd, Except.error.injEq] at he
                exact invalidMsg_ne_healthMsg _ he
            | some h0 => simp [hd] at he
  · intro h he
    cases hro : resp.ok with
    | false => simp [checkHealth, hro] at he
    | true =>
        simp only [checkHealth, hro, if_true] at he
        cases hj : resp.bodyJson with
        | none => rw [hj] at he; exact absurd he (by simp)
        | some j =>
            rw [hj] at he
            cases hd : decodeHealth j with
            | none => simp [hd] at he
            | some h0 =>
                simp [hd] at he
                exact ⟨rfl, ⟨j, rfl, he ▸ hd⟩, rfl⟩

/-- A concrete healthy response. -/
def sampleHealthOk : HttpResponse :=
  { ok := true, status := 200, bodyText := ""
    bodyJson := some (.obj [("status", .str "healthy"),
                            ("knowledge_base_entries", .num 57)]) }

/-- A concrete unreachable-backend response. -/
def sampleDownResponse : HttpResponse :=
  { ok := false, status := 503, bodyText := "", bodyJson := none }

/-- Witness for C7 at two concrete responses. -/
theorem checkHealth_contract_witness :
    checkHealth sampleDownResponse =
      .error ("Health check failed: " ++ toString sampleDownResponse.status) ∧
    (sampleHealthOk.ok = true ∧
     (∃ j, sampleHealthOk.bodyJson = some j ∧
        decodeHealth j = some ⟨"healthy", 57⟩) ∧
     (encodeHealth ⟨"healthy", 57⟩).keys =
       ["status", "knowledge_base_entries"]) :=
  ⟨(checkHealth_contract sampleDownResponse).1.mp rfl,
   (checkHealth_contract sampleHealthOk).2 ⟨"healthy", 57⟩ (by rfl)⟩

/-! ## List helpers shared by the download-name and streaming proofs -/

/-- `takeWhile` passes over a satisfied prefix. -/
theorem takeWhile_append_sat {α : Type} (p : α → Bool) (xs ys : List α)
    (h : ∀ x ∈ xs, p x = true) :
    (xs ++ ys).takeWhile p = xs ++ ys.takeWhile p := by
  induction xs with
  | nil => simp
  | cons a t ih =>
      have ha : p a = true := h a (List.mem_cons_self a t)
      simp [List.takeWhile_cons, ha,
        ih (fun x hx => h x (List.mem_cons_of_mem a hx))]

/-- `dropWhile` drops a satisfied prefix. -/
theorem dropWhile_append_sat {α : Type} (p : α → Bool) (xs ys : List α)
    (h : ∀ x ∈ xs, p x = true) :
    (xs ++ ys).dropWhile p = ys.dropWhile p := by
  induction xs with
  | nil => simp
  | cons a t ih =>
      have ha : p a = true := h a (List.mem_cons_self a t)
      simp [List.dropWhile_cons, ha,
        ih (fun x hx => h x (List.mem_cons_of_mem a hx))]

/-- The head of a `dropWhile` result is a member of the original list. -/
theorem mem_of_dropWhile_eq_cons {α : Type} (p : α → Bool) (l : List α)
    (a : α) (t : List α) (h : l.dropWhile p = a :: t) : a ∈ l := by
  induction l with
  | nil => simp [List.dropWhile] at h
  | cons b l ih =>
      rw [List.dropWhile_cons] at h
      by_cases hb : p b = true
      · simp only [hb, if_true] at h
        exact List.mem_cons_of_mem _ (ih h)
      · simp only [hb, if_false] at h
        exact (List.cons.injEq b l a t ▸ h).1 ▸ List.mem_cons_self b l

/-! ## C8 -/

/-- C8: a dropped file reaches `onFileSelect` only when its name ends in
`.csv` (otherwise the drop is silently ignored), while the file-input
dialog delivers every selected file regardless of extension. -/
theorem fileUpload_select_contract :
    (∀ (disabled : Bool) (files : List DomFile) (f : DomFile),
        handleDrop disabled files = some f →
        jsEndsWith f.name ".csv" = true ∧ files.head? = some f) ∧
    (∀ (disabled : Bool) (f : DomFile) (rest : List DomFile),
        jsEndsWith f.name ".csv" = false →
        handleDrop disabled (f :: rest) = none) ∧
    (∀ (f : DomFile) (rest : List DomFile),
        handleFileChange (some (f :: rest)) = some f) := by
  refine ⟨?_, ?_, ?_⟩
  · intro disabled files f h
    cases disabled with
    | true => simp [handleDrop] at h
    | false =>
        cases files with
        | nil => simp [handleDrop] at h
        | cons g t =>
            by_cases hc : jsEndsWith g.name ".csv" = true
            · simp [handleDrop, hc] at h
              exact ⟨h ▸ hc, by simp [h]⟩
            · simp [handleDrop, hc] at h
  · intro disabled f rest hns
    cases disabled with
    | true => simp [handleDrop]
    | false => simp [handleDrop, hns]
  · intro f rest
    rfl

/-- Witness for C8 at concrete files. -/
theorem fileUpload_select_contract_witness :
    jsEndsWith (DomFile.mk "notes.txt").name ".csv" = false ∧
    handleDrop false [⟨"notes.txt"⟩] = none ∧
    handleFileChange (some [⟨"notes.txt"⟩]) = some ⟨"notes.txt"⟩ :=
  ⟨by decide,
   fileUpload_select_contract.2.1 false ⟨"notes.txt"⟩ [] (by decide),
   fileUpload_select_contract.2.2 ⟨"notes.txt"⟩ []⟩

/-! ## C9 -/

/-- C9: `downloadCSV` names the download `filled_<base>_<date>.csv`, where
`<base>` is the original filename with its last dot-extension removed (the
name unchanged when it has no extension) and `<date>` is the date part of
the current ISO timestamp (its `YYYY-MM-DD` prefix before the `T`). -/
theorem downloadFilename_contract :
    (∀ (base ext isoNow : String), ext ≠ "" →
        (∀ c ∈ ext.data, c ≠ '.' ∧ c ≠ '/') →
        downloadFilename (base ++ "." ++ ext) isoNow =
          "filled_" ++ base ++ "_" ++ dateOfIso isoNow ++ ".csv") ∧
    (∀ (name isoNow : String), (∀ c ∈ name.data, c ≠ '.') →
        downloadFilename name isoNow =
          "filled_" ++ name ++ "_" ++ dateOfIso isoNow ++ ".csv") ∧
    (∀ (d rest : String), (∀ c ∈ d.data, c ≠ 'T') →
        dateOfIso (d ++ "T" ++ rest) = d) := by
  refine ⟨?_, ?_, ?_⟩
  · intro base ext isoNow hne hchars
    have hsat : ∀ c ∈ ext.data.reverse, (c != '.' && c != '/') = true := by
      intro c hc
      obtain ⟨h1, h2⟩ := hchars c (List.mem_reverse.mp hc)
      simp [h1, h2]
    have h1 : (base ++ "." ++ ext).data.reverse =
        ext.data.reverse ++ ('.' :: base.data.reverse) := by
      show ((base.data ++ ['.']) ++ ext.data).reverse = _
      simp [List.reverse_append]
    have hkey : stripExtension (base ++ "." ++ ext) = base := by
      unfold stripExtension
      rw [h1, dropWhile_append_sat _ _ _ hsat, takeWhile_append_sat _ _ _ hsat]
      simp only [List.dropWhile_cons, List.takeWhile_cons]
      norm_num
      have hde : ext.data ≠ [] := by
        intro hh
        apply hne
        cases ext with
        | mk l => simp at hh; rw [hh]
      simp [List.isEmpty_iff, hde]
    unfold downloadFilename
    rw [hkey]
  · intro name isoNow hnd
    have hkey : stripExtension name = name := by
      unfold stripExtension
      split
      · rename_i base heq
        exfalso
        have hm : '.' ∈ name.data.reverse :=
          mem_of_dropWhile_eq_cons _ _ _ _ heq
        exact hnd '.' (List.mem_reverse.mp hm) rfl
      · rfl
    unfold downloadFilename
    rw [hkey]
  · intro d rest hnT
    have hsat : ∀ c ∈ d.data, (c != 'T') = true := by
      intro c hc
      simp [hnT c hc]
    unfold dateOfIso
    have h1 : (d ++ "T" ++ rest).data = d.data ++ ('T' :: rest.data) := by
      show (d.data ++ ['T']) ++ rest.data = _
      simp
    rw [h1, takeWhile_append_sat _ _ _ hsat]
    simp only [List.takeWhile_cons]
    norm_num

/-- Witness for C9 at a concrete filename and timestamp. -/
theorem downloadFilename_contract_witness :
    downloadFilename ("questions" ++ "." ++ "csv") "2026-10-12T09:30:00.000Z"
      = "filled_" ++ "questions" ++ "_"
        ++ dateOfIso "2026-10-12T09:30:00.000Z" ++ ".csv" ∧
    dateOfIso ("2026-10-12" ++ "T" ++ "09:30:00.000Z") = "2026-10-12" :=
  ⟨downloadFilename_contract.1 "questions" "csv" "2026-10-12T09:30:00.000Z"
     (by decide) (by decide),
   downloadFilename_contract.2.2 "2026-10-12" "09:30:00.000Z" (by decide)⟩

/-! ## C3 -/

/-- C3: the final confidence score always lies in [0,100]; for each fixed
banding the (numeric) confidence level is given by the pure function
`numericLevel`, whose bands partition the scores with High exactly at
scores of at least 90. -/
theorem confidenceScoring_contract (b : Banding) (base : Int)
    (adjustments : List Int) (s : Int) (hb : validBanding b) :
    (0 ≤ finalScore base adjustments ∧ finalScore base adjustments ≤ 100) ∧
    confidenceLevel b false s = numericLevel b s ∧
    (numericLevel b s = .high ↔ 90 ≤ s) ∧
    (numericLevel b s = .medium ↔ b.mediumLow ≤ s ∧ s < 90) ∧
    (numericLevel b s = .low ↔ b.lowLow ≤ s ∧ s < b.mediumLow) ∧
    (numericLevel b s = .requiresHumanAttention ↔ s < b.lowLow) := by
  obtain ⟨hlm, hm90⟩ := hb
  refine ⟨⟨?_, ?_⟩, rfl, ?_, ?_, ?_, ?_⟩
  · simp only [finalScore]; omega
  · simp only [finalScore]; omega
  all_goals
    unfold numericLevel
    split_ifs with h1 h2 h3 <;> simp <;> omega

/-- Witness for C3 with the backend README's banding (70/40) and the
spec's worked example: similarity 92 with a +5 domain-keyword bonus. -/
theorem confidenceScoring_contract_witness :
    (0 ≤ finalScore 92 [5] ∧ finalScore 92 [5] ≤ 100) ∧
    confidenceLevel ⟨70, 40⟩ false 97 = numericLevel ⟨70, 40⟩ 97 ∧
    (numericLevel ⟨70, 40⟩ 97 = .high ↔ 90 ≤ (97 : Int)) ∧
    (numericLevel ⟨70, 40⟩ 97 = .medium ↔
      (⟨70, 40⟩ : Banding).mediumLow ≤ 97 ∧ (97 : Int) < 90) ∧
    (numericLevel ⟨70, 40⟩ 97 = .low ↔
      (⟨70, 40⟩ : Banding).lowLow ≤ 97 ∧
        (97 : Int) < (⟨70, 40⟩ : Banding).mediumLow) ∧
    (numericLevel ⟨70, 40⟩ 97 = .requiresHumanAttention ↔
      (97 : Int) < (⟨70, 40⟩ : Banding).lowLow) :=
  confidenceScoring_contract ⟨70, 40⟩ 92 [5] 97 (by constructor <;> decide)

/-! ## C6 -/

/-- C6: the tabular body's first line is exactly the fixed header
`Question,Answer,Confidence Score,Evidence` (one row per record follows),
and the evidence citation of every record the (spec-modelled) orchestrator
builds has the fixed form `[<source_document> > <section> > Row <n>]`. -/
theorem csvFormat_contract (records : List FillResult) (q a : String)
    (entry : KnowledgeEntry) (sim : Int) (adjs : List Int) (b : Banding)
    (flag : Bool) :
    (csvLinesOf records).head? =
      some "Question,Answer,Confidence Score,Evidence" ∧
    (csvLinesOf records).length = records.length + 1 ∧
    (mkFillRecord q a entry sim adjs b flag).evidence =
      "[" ++ entry.source_document ++ " > " ++ entry.sectionName
        ++ " > Row " ++ toString entry.row_index ++ "]" := by
  refine ⟨rfl, ?_, rfl⟩
  simp [csvLinesOf]

/-! ## C5 -/

/-- A line that starts with an opening brace is never the delimiter line. -/
theorem brace_line_ne_delim (s : String) : "\x7b" ++ s ≠ csvDelimiter :=
  fun h => nomatch congrArg (fun t => t.data.head?) h

/-- Every line of the progress part differs from the delimiter line. -/
theorem progress_part_sat (updates : List ProgressMsg) (filename : String) :
    ∀ l ∈ updates.map renderProgress
        ++ [renderTerminal (mkTerminal filename)],
      (l != csvDelimiter) = true := by
  intro l hl
  rw [bne_iff_ne]
  rcases List.mem_append.mp hl with hm | hm
  · obtain ⟨p, _, hp⟩ := List.mem_map.mp hm
    exact hp ▸ brace_line_ne_delim _
  · rw [List.mem_singleton.mp hm]
    exact brace_line_ne_delim _

/-- C5: the emitted fill stream is the progress lines, then a terminal
object with `state="ready"`, `progress=100` and the output filename, then
the literal delimiter `---CSV---`, then the raw tabular body; splitting on
the first occurrence of the delimiter recovers exactly the progress part
and the body. -/
theorem streamProtocol_contract (updates : List ProgressMsg)
    (filename : String) (csvBody : List String) :
    (mkTerminal filename).state = "ready" ∧
    (mkTerminal filename).progress = 100 ∧
    (mkTerminal filename).output_filename = filename ∧
    emitStream updates filename csvBody =
      (updates.map renderProgress ++ [renderTerminal (mkTerminal filename)])
        ++ (csvDelimiter :: csvBody) ∧
    consumeStream (emitStream updates filename csvBody) =
      (updates.map renderProgress ++ [renderTerminal (mkTerminal filename)],
       csvBody) := by
  refine ⟨rfl, rfl, rfl, by simp [emitStream], ?_⟩
  have hemit : emitStream updates filename csvBody =
      (updates.map renderProgress ++ [renderTerminal (mkTerminal filename)])
        ++ (csvDelimiter :: csvBody) := by
    simp [emitStream]
  rw [hemit]
  unfold consumeStream
  rw [takeWhile_append_sat _ _ _ (progress_part_sat updates filename),
      dropWhile_append_sat _ _ _ (progress_part_sat updates filename)]
  simp [List.takeWhile_cons, List.dropWhile_cons]

/-! ## C10 -/

/-- The reachability invariant of the page state machine: while a request
is in flight and in the error state the stored result is null, and the
ready state always holds a result. -/
def pageInv (s : PageState) : Prop :=
  (s.appState = .processing → s.result = none) ∧
  (s.appState = .error → s.result = none) ∧
  (s.appState = .ready → s.result ≠ none)

/-- The invariant holds initially. -/
theorem pageInv_init : pageInv initState := by
  refine ⟨?_, ?_, ?_⟩ <;> intro h <;> simp [initState] at h ⊢

/-- Every transition preserves the invariant. -/
theorem pageInv_step (e : PageEvent) (s : PageState) (h : pageInv s) :
    pageInv (step e s) := by
  obtain ⟨hp, he, hr⟩ := h
  cases e with
  | fileSelect f =>
      by_cases hi : s.appState = .idle <;>
        simp [step, hi, pageInv] at * <;>
        exact ⟨hp, he, hr⟩
  | autofillStart =>
      by_cases hi : s.appState = .idle
      · cases hf : s.selectedFile with
        | none => simp [step, hi, hf, pageInv]
        | some f => simp [step, hi, hf, pageInv]
      · simp [step, hi, pageInv]; exact ⟨hp, he, hr⟩
  | autofillSuccess r =>
      by_cases hi : s.appState = .processing
      · simp [step, hi, pageInv]
      · simp [step, hi, pageInv]; exact ⟨he, hr⟩
  | autofillFailure msg =>
      by_cases hi : s.appState = .processing
      · simp [step, hi, pageInv]; exact hp hi
      · simp [step, hi, pageInv]; exact ⟨he, hr⟩
  | download => exact ⟨hp, he, hr⟩
  | reset =>
      by_cases hi : s.appState = .ready ∨ s.appState = .error <;>
        simp [step, hi, pageInv, initState] <;> exact ⟨hp, he, hr⟩

/-- The invariant holds in every reachable state. -/
theorem pageInv_run (events : List PageEvent) : pageInv (run events) := by
  suffices hgen : ∀ (l : List PageEvent) (s : PageState), pageInv s →
      pageInv (l.foldl (fun s e => step e s) s) by
    exact hgen events initState pageInv_init
  intro l
  induction l with
  | nil => intro s hs; exact hs
  | cons e t ih => intro s hs; exact ih (step e s) (pageInv_step e s hs)

/-- C10: in every reachable page state, the error state holds no result
and the ready state always holds one (so the Ready view, guarded by
`state === 'ready' && result`, is rendered whenever the state is ready and
never with a null result); `handleAutofill` clears `result` and `error`
when it starts a request; and a transition can newly enter the ready state
only by storing a successful response in `result`. -/
theorem pageStateMachine_contract (events : List PageEvent) (e : PageEvent)
    (s : PageState) (f : DomFile) :
    ((run events).appState = .error → (run events).result = none) ∧
    ((run events).appState = .ready → ∃ r, (run events).result = some r) ∧
    ((run events).appState = .ready →
      readyViewRendered (run events) = true) ∧
    (readyViewRendered (run events) = true →
      (run events).appState = .ready ∧ (run events).result ≠ none) ∧
    (s.appState = .idle → s.selectedFile = some f →
      (step .autofillStart s).result = none ∧
      (step .autofillStart s).error = none ∧
      (step .autofillStart s).appState = .processing) ∧
    ((step e s).appState = .ready → s.appState = .ready ∨
      ∃ r, e = .autofillSuccess r ∧ (step e s).result = some r) := by
  obtain ⟨hp, he, hr⟩ := pageInv_run events
  refine ⟨he, ?_, ?_, ?_, ?_, ?_⟩
  · intro h
    cases hres : (run events).result with
    | none => exact absurd hres (hr h)
    | some r => exact ⟨r, rfl⟩
  · intro h
    have := hr h
    simp [readyViewRendered, h, Option.isSome_iff_ne_none, this]
  · intro h
    simp only [readyViewRendered, Bool.and_eq_true, decide_eq_true_eq,
      Option.isSome_iff_ne_none] at h
    exact h
  · intro hi hf
    simp [step, hi, hf]
  · intro hready
    cases e with
    | fileSelect g =>
        by_cases hi : s.appState = .idle <;> simp [step, hi] at hready <;>
          exact Or.inl hready
    | autofillStart =>
        by_cases hi : s.appState = .idle
        · cases hf2 : s.selectedFile with
          | none => simp [step, hi, hf2] at hready
          | some g => simp [step, hi, hf2] at hready
        · simp [step, hi] at hready; exact Or.inl hready
    | autofillSuccess r =>
        by_cases hi : s.appState = .processing
        · exact Or.inr ⟨r, rfl, by simp [step, hi]⟩
        · simp [step, hi] at hready; exact Or.inl hready
    | autofillFailure msg =>
        by_cases hi : s.appState = .processing <;> simp [step, hi] at hready
        exact Or.inl hready
    | download => exact Or.inl hready
    | reset =>
        by_cases hi : s.appState = .ready ∨ s.appState = .error
        · simp [step, hi, initState] at hready
        · simp [step, hi] at hready; exact Or.inl hready

/-- A concrete idle page state with a selected file and a stale error. -/
def idleWithFile : PageState :=
  { appState := .idle, selectedFile := some ⟨"questions.csv"⟩
    result := none, error := some "stale" }

/-- A concrete event sequence ending in a failed request. -/
def failRunEvents : List PageEvent :=
  [.fileSelect ⟨"questions.csv"⟩, .autofillStart,
   .autofillFailure "Request failed: 500"]

/-- Witness for C10: after a concrete failing run the error state holds no
result, and starting a request from a concrete idle state clears `result`
and `error`. -/
theorem pageStateMachine_contract_witness :
    (run failRunEvents).result = none ∧
    (step .autofillStart idleWithFile).result = none ∧
    (step .autofillStart idleWithFile).error = none ∧
    (step .autofillStart idleWithFile).appState = .processing :=
  ⟨(pageStateMachine_contract failRunEvents .download initState
      ⟨"questions.csv"⟩).1 (by rfl),
   (pageStateMachine_contract [] .download idleWithFile
      ⟨"questions.csv"⟩).2.2.2.2.1 rfl rfl⟩
